import Mathlib

/-!
Shallow embedding of the dops-rca core:
* `generateRCA` — the pure aggregator of `gitops-rca.ts`
  (`src/unnamed/part_004`, lines 308–376);
* the post-settle handler logic of the `rca:analyze` action
  (lines 149–172);
* the timed fan-out / settle-all join (lines 117–147 and the
  `timeout` helper, lines 234–241);
* the circuit-breaker / rate-limiter state machine of
  `ResilientLLMClient` (`src/resilient-llm-client.ts`).

JavaScript numbers holding counts are modelled as `Int` (for
`errorCount`, whose sign is tested) or `Nat` (for lengths and the
confidence score, which the code only ever adds non-negative weights
to).  `null`/`undefined` become `Option`.
-/

/-- A Kubernetes event as consumed by `generateRCA`: only the `type`
and `reason` fields are inspected (`e.type === 'Warning' || e.reason
=== 'Failed'`). -/
structure K8sEvent where
  type : String
  reason : String
deriving DecidableEq, Repr

/-- `RcaContext` from `gitops-rca.ts` (lines 7–13). -/
structure RcaContext where
  ns : String
  cluster : String
  k8sEvents : List K8sEvent
  podStatus : List String
  deploymentStatus : List String
deriving DecidableEq, Repr

/-- One entry of `k8sgptAnalysis.problems`; `generateRCA` reads only
`description`. -/
structure Problem where
  description : String
deriving DecidableEq, Repr

/-- The k8sgpt analysis payload.  The source guards with
`k8sgptAnalysis?.problems?.length > 0`, so `problems` itself may be
absent. -/
structure K8sgptAnalysis where
  problems : Option (List Problem)
deriving DecidableEq, Repr

/-- The payload returned by `victoriaLogs.fetchLogAnomalies` as used
by the aggregator: `entries`, `errorCount` and `patterns`. -/
structure LogAnomalies where
  entries : List String
  errorCount : Int
  warningCount : Int
  patterns : List String
  timeRange : String
deriving DecidableEq, Repr

/-- The `evidence` object of `RcaResult` (lines 369–373). -/
structure Evidence where
  k8sEvents : List K8sEvent
  logSamples : List String
  k8sgptDetails : Option K8sgptAnalysis
deriving DecidableEq, Repr

/-- `RcaResult` from `gitops-rca.ts` (lines 15–22). -/
structure RcaResult where
  summary : String
  confidence : Nat
  factors : List String
  actions : List String
  evidence : Evidence
  timestamp : String
deriving DecidableEq, Repr

/-- The critical-event filter of `generateRCA` (lines 337–339):
`k8sContext.k8sEvents.filter(e => e.type === 'Warning' || e.reason ===
'Failed')`. -/
def criticalEvents (k8sContext : RcaContext) : List K8sEvent :=
  k8sContext.k8sEvents.filter (fun e => e.type == "Warning" || e.reason == "Failed")

/-- `generateRCA` (lines 308–376).  The `new Date().toISOString()`
call is the only impure expression in the source body; it is passed in
as the `timestamp` argument. -/
def generateRCA (k8sContext : RcaContext) (logAnomalies : Option LogAnomalies)
    (k8sgptAnalysis : Option K8sgptAnalysis) (timestamp : String) : RcaResult :=
  -- Analyze k8sgpt results: `k8sgptAnalysis?.problems?.length > 0`
  let aiProblems : List Problem :=
    match k8sgptAnalysis with
    | some a => a.problems.getD []
    | none => []
  let factors1 : List String :=
    if 0 < aiProblems.length then aiProblems.map (fun p => p.description) else []
  let confidence1 : Nat := if 0 < aiProblems.length then 30 else 0
  -- Analyze log patterns: `logAnomalies?.errorCount > 0`
  let factors2 : List String :=
    match logAnomalies with
    | some l =>
        if 0 < l.errorCount then s!"Found {l.errorCount} error logs" :: l.patterns else []
    | none => []
  let confidence2 : Nat :=
    match logAnomalies with
    | some l => if 0 < l.errorCount then 25 else 0
    | none => 0
  -- Analyze Kubernetes events
  let critical := criticalEvents k8sContext
  let factors3 : List String :=
    if 0 < critical.length then [s!"{critical.length} critical Kubernetes events"] else []
  let confidence3 : Nat := if 0 < critical.length then 20 else 0
  let factors := factors1 ++ factors2 ++ factors3
  -- Generate recommended actions: `logAnomalies?.patterns.includes(...)`
  -- (Array.prototype.includes — exact element equality, not substring search)
  let patterns : List String :=
    match logAnomalies with
    | some l => l.patterns
    | none => []
  let actions : List String :=
    (if patterns.contains "OOMKilled" then
       ["Increase memory limits for affected pods",
        "Review memory usage patterns and optimize application"]
     else []) ++
    (if patterns.contains "timeout" then
       ["Investigate network latency or slow dependencies",
        "Review timeout configurations"]
     else [])
  -- Build summary
  let summary : String :=
    if 0 < factors.length then
      s!"Analysis identified {factors.length} contributing factors. {actions.length} recommended actions available."
    else
      "No significant issues detected. System appears healthy."
  -- Normalize confidence (0-100)
  let confidence := Nat.min (confidence1 + confidence2 + confidence3) 100
  { summary := summary
    confidence := confidence
    factors := factors
    actions := actions
    evidence :=
      { k8sEvents := critical.take 10
        logSamples := (match logAnomalies with
          | some l => l.entries.take 5
          | none => [])
        k8sgptDetails := k8sgptAnalysis }
    timestamp := timestamp }

/-- The condition under which the k8sgpt rule of `generateRCA` fires
(line 324). -/
def aiRule (k8sgptAnalysis : Option K8sgptAnalysis) : Bool :=
  match k8sgptAnalysis with
  | some a => decide (0 < (a.problems.getD []).length)
  | none => false

/-- The condition under which the log rule of `generateRCA` fires
(line 330). -/
def logRule (logAnomalies : Option LogAnomalies) : Bool :=
  match logAnomalies with
  | some l => decide (0 < l.errorCount)
  | none => false

/-- The condition under which the Kubernetes-event rule of
`generateRCA` fires (line 340). -/
def k8sRule (k8sContext : RcaContext) : Bool :=
  decide (0 < (criticalEvents k8sContext).length)

/-- The worked example's Kubernetes context: one Warning event. -/
def exampleK8sContext : RcaContext :=
  { ns := "team-a-prod", cluster := "prod-eks-us"
    k8sEvents := [{ type := "Warning", reason := "BackOff" }]
    podStatus := [], deploymentStatus := [] }

/-- The worked example's log outcome: five error logs, one pattern. -/
def exampleLogAnomalies : LogAnomalies :=
  { entries := [], errorCount := 5, warningCount := 0
    patterns := ["timeout (5x)"], timeRange := "1h" }

/-- The worked example's AI outcome: a single CrashLoopBackOff problem. -/
def exampleAi : K8sgptAnalysis :=
  { problems := some [{ description := "CrashLoopBackOff" }] }

example :
    (generateRCA exampleK8sContext (some exampleLogAnomalies) (some exampleAi)
        "2024-01-01T00:00:00.000Z").factors =
      ["CrashLoopBackOff", "Found 5 error logs", "timeout (5x)",
       "1 critical Kubernetes events"] := by decide

example :
    (generateRCA exampleK8sContext (some exampleLogAnomalies) (some exampleAi)
        "2024-01-01T00:00:00.000Z").confidence = 75 := by decide

example :
    (generateRCA exampleK8sContext (some exampleLogAnomalies) (some exampleAi)
        "2024-01-01T00:00:00.000Z").actions = [] := by decide

/-!
## ResilientLLMClient (`src/resilient-llm-client.ts`)

The mutable fields `circuitBreakerFailures` / `circuitBreakerOpen`
become an explicit state record.  The `setTimeout` scheduled at the
Open transition becomes a recorded absolute firing time `resetAt`
(the class holds at most one live timer in every scenario reachable
through the breaker gate: while open, no new call can fail).  Time is
milliseconds as a `Nat`.
-/

/-- `maxFailures = 3` (line 16). -/
def maxFailures : Nat := 3

/-- `resetTimeout = 60000` — 1 minute (line 17). -/
def resetTimeoutMs : Nat := 60000

/-- The mutable state of `ResilientLLMClient`. -/
structure CBState where
  circuitBreakerFailures : Nat
  circuitBreakerOpen : Bool
  resetAt : Option Nat
deriving DecidableEq, Repr

/-- `handleFailure` (lines 70–90): increment the failure count; at the
threshold, open the breaker and schedule the automatic reset
`resetTimeoutMs` from now. -/
def handleFailure (s : CBState) (now : Nat) : CBState :=
  let failures := s.circuitBreakerFailures + 1
  if maxFailures ≤ failures then
    { circuitBreakerFailures := failures
      circuitBreakerOpen := true
      resetAt := some (now + resetTimeoutMs) }
  else
    { s with circuitBreakerFailures := failures }

/-- The success path of `query` (lines 53–57): reset the failure count
(the guarded assignment `if failures > 0 then failures = 0` has the
same net effect), leaving `circuitBreakerOpen` untouched. -/
def onSuccess (s : CBState) : CBState :=
  { s with circuitBreakerFailures := 0 }

/-- The `setTimeout` callback scheduled in `handleFailure`
(lines 84–88): close the breaker and zero the failure count. -/
def fireReset : CBState :=
  { circuitBreakerFailures := 0, circuitBreakerOpen := false, resetAt := none }

/-- Let time advance to `now`: the scheduled reset fires once its
deadline has passed. -/
def advanceTo (s : CBState) (now : Nat) : CBState :=
  match s.resetAt with
  | some t => if t ≤ now then fireReset else s
  | none => s

/-- What one `query` call does and observes. -/
structure QueryResult where
  result : Except String String
  state : CBState
  providerInvoked : Bool
  limiterScheduled : Bool
deriving Repr

/-- `query` (lines 40–65), for a call whose provider invocation — if it
is reached — settles as `provider`: the breaker gate either rejects
immediately (open) or the task is scheduled on the limiter and the
provider called; on success the payload is returned unchanged, on
exception the failure is recorded and the same error re-thrown. -/
def queryStep (s : CBState) (now : Nat) (provider : Except String String) : QueryResult :=
  if s.circuitBreakerOpen then
    { result := .error "Circuit breaker open - LLM service unavailable"
      state := s, providerInvoked := false, limiterScheduled := false }
  else
    match provider with
    | .ok r =>
        { result := .ok r, state := onSuccess s
          providerInvoked := true, limiterScheduled := true }
    | .error e =>
        { result := .error e, state := handleFailure s now
          providerInvoked := true, limiterScheduled := true }

/-!
## Orchestrator (`gitops-rca.ts` handler)

The `Promise.allSettled` fan-out (lines 117–147) is modelled over
timed branches: a branch is a completion time plus the value or error
it settles with; `timeout` (lines 234–241) races the branch against
its deadline; `allSettled` joins the three settled outcomes at the
latest of their times and never rejects.
-/

/-- A settled promise, as reported by `Promise.allSettled`. -/
inductive Settled (α : Type) where
  | fulfilled : α → Settled α
  | rejected : String → Settled α
deriving DecidableEq, Repr

/-- A running promise: when it settles and what it settles with. -/
structure TimedPromise (α : Type) where
  completesAt : Nat
  result : Except String α
deriving Repr

/-- A settled outcome together with the instant at which it settled. -/
structure SettledAt (α : Type) where
  settledAt : Nat
  out : Settled α
deriving DecidableEq, Repr

/-- The `timeout` helper (lines 234–241): `Promise.race` of the branch
against a `setTimeout` rejection carrying `message`.  The branch wins
exactly when it settles strictly before the deadline fires. -/
def raceTimeout (p : TimedPromise α) (ms : Nat) (message : String) : SettledAt α :=
  if p.completesAt < ms then
    { settledAt := p.completesAt
      out := match p.result with
        | .ok v => .fulfilled v
        | .error e => .rejected e }
  else
    { settledAt := ms, out := .rejected message }

/-- `Promise.allSettled` over the three launched branches: settles at
the latest branch time, always fulfilling with the full outcome
triple — a rejected branch is reported, never propagated. -/
def allSettled3 (x : SettledAt α) (y : SettledAt β) (z : SettledAt γ) :
    SettledAt (Settled α × Settled β × Settled γ) :=
  { settledAt := max x.settledAt (max y.settledAt z.settledAt)
    out := .fulfilled (x.out, y.out, z.out) }

/-- The `.catch(err => ... return null)` wrapper on the k8sgpt branch
(lines 140–145): any rejection — the provider's own or the deadline's —
becomes a fulfilled `null`. -/
def catchToNull (s : SettledAt α) : SettledAt (Option α) :=
  { settledAt := s.settledAt
    out := match s.out with
      | .fulfilled v => .fulfilled (some v)
      | .rejected _ => .fulfilled none }

/-- Lines 117–147: launch the three source fetches, race each against
its own deadline (10 s, 15 s, 20 s), and join with `allSettled`.  When
`includeLogs` is false the log slot is `Promise.resolve(null)`; when no
`k8sgptClient` is configured the AI slot is `Promise.resolve(null)`. -/
def settleSources (includeLogs hasK8sgptClient : Bool)
    (k8sFetch : TimedPromise RcaContext) (logFetch : TimedPromise LogAnomalies)
    (aiFetch : TimedPromise K8sgptAnalysis) :
    SettledAt (Settled RcaContext × Settled (Option LogAnomalies) ×
      Settled (Option K8sgptAnalysis)) :=
  let k8sBranch := raceTimeout k8sFetch 10000 "Kubernetes API timeout"
  let logBranch : SettledAt (Option LogAnomalies) :=
    if includeLogs then
      let r := raceTimeout logFetch 15000 "VictoriaLogs timeout"
      { settledAt := r.settledAt
        out := match r.out with
          | .fulfilled v => .fulfilled (some v)
          | .rejected e => .rejected e }
    else { settledAt := 0, out := .fulfilled none }
  let aiBranch : SettledAt (Option K8sgptAnalysis) :=
    if hasK8sgptClient then
      catchToNull (raceTimeout aiFetch 20000 "k8sgpt timeout")
    else { settledAt := 0, out := .fulfilled none }
  allSettled3 k8sBranch logBranch aiBranch

/-- Lines 149–172: what the handler does once the three branches have
settled.  A rejected Kubernetes branch aborts the run with the fatal
error of line 151; otherwise rejected optional branches collapse to
`null` and the aggregator runs. -/
def handlerAfterSettle (k8sResult : Settled RcaContext)
    (logResult : Settled (Option LogAnomalies))
    (aiResult : Settled (Option K8sgptAnalysis))
    (timestamp : String) : Except String RcaResult :=
  match k8sResult with
  | .rejected reason => .error s!"Failed to fetch Kubernetes context: {reason}"
  | .fulfilled k8sContext =>
    let logAnomalies : Option LogAnomalies :=
      match logResult with
      | .fulfilled v => v
      | .rejected _ => none
    let k8sgptAnalysis : Option K8sgptAnalysis :=
      match aiResult with
      | .fulfilled v => v
      | .rejected _ => none
    .ok (generateRCA k8sContext logAnomalies k8sgptAnalysis timestamp)

/-!
## Theorems about the aggregator
-/

/-- Claim C1, counterexample: at the worked example's inputs —
problems `["CrashLoopBackOff"]`, `errorCount = 5`, patterns
`["timeout (5x)"]`, one Warning event — the recommended-action list is
empty; in particular it does not include the latency/dependency
recommendation the claim asserts, because `Array.prototype.includes`
tests exact element equality and `"timeout (5x)"` is not the element
`"timeout"`. -/
theorem workedExample_timeout_action_missing :
    (generateRCA exampleK8sContext (some exampleLogAnomalies) (some exampleAi)
        "2024-01-01T00:00:00.000Z").actions = [] ∧
    "Investigate network latency or slow dependencies" ∉
      (generateRCA exampleK8sContext (some exampleLogAnomalies) (some exampleAi)
        "2024-01-01T00:00:00.000Z").actions := by
  decide

/-- Claim C1 (amended): at the worked example's inputs `generateRCA`
produces the four claimed factors in the claimed order and
`confidence = 75`, but its action list is empty — the `"timeout"`
action rule does not fire on the pattern `"timeout (5x)"`. -/
theorem workedExample_factors_confidence :
    (generateRCA exampleK8sContext (some exampleLogAnomalies) (some exampleAi)
        "2024-01-01T00:00:00.000Z").factors =
      ["CrashLoopBackOff", "Found 5 error logs", "timeout (5x)",
       "1 critical Kubernetes events"] ∧
    (generateRCA exampleK8sContext (some exampleLogAnomalies) (some exampleAi)
        "2024-01-01T00:00:00.000Z").confidence = 75 ∧
    (generateRCA exampleK8sContext (some exampleLogAnomalies) (some exampleAi)
        "2024-01-01T00:00:00.000Z").actions = [] := by
  refine ⟨by decide, by decide, by decide⟩

/-- Helper: the confidence score, expressed through the three rule
predicates. -/
lemma generateRCA_confidence_formula (k : RcaContext) (l : Option LogAnomalies)
    (a : Option K8sgptAnalysis) (ts : String) :
    (generateRCA k l a ts).confidence =
      min ((if aiRule a then 30 else 0) + (if logRule l then 25 else 0) +
        (if k8sRule k then 20 else 0)) 100 := by
  cases a <;> cases l <;>
    simp only [generateRCA, aiRule, logRule, k8sRule] <;>
    split_ifs <;> simp_all <;> omega

/-- Helper: the factor list is empty exactly when none of the three
rules triggered. -/
lemma generateRCA_factors_nil_iff (k : RcaContext) (l : Option LogAnomalies)
    (a : Option K8sgptAnalysis) (ts : String) :
    (generateRCA k l a ts).factors = [] ↔
      (aiRule a = false ∧ logRule l = false ∧ k8sRule k = false) := by
  cases a <;> cases l <;>
    simp only [generateRCA, aiRule, logRule, k8sRule] <;>
    split_ifs <;>
    simp_all [List.append_eq_nil, List.map_eq_nil_iff, List.length_pos]

/-- Helper: the summary, expressed through the factor and action
projections of the result itself; holds by unfolding. -/
lemma generateRCA_summary_formula (k : RcaContext) (l : Option LogAnomalies)
    (a : Option K8sgptAnalysis) (ts : String) :
    (generateRCA k l a ts).summary =
      (if 0 < (generateRCA k l a ts).factors.length then
        s!"Analysis identified {(generateRCA k l a ts).factors.length} contributing factors. {(generateRCA k l a ts).actions.length} recommended actions available."
      else "No significant issues detected. System appears healthy.") := rfl

/-- Claim C2: the confidence score is the clamped sum of the triggered
rule weights — 30 for the AI rule, 25 for the log rule, 20 for the
Kubernetes-event rule, each contributed once — and is therefore always
at most 100 (it is a `Nat`, hence also ≥ 0). -/
theorem confidence_eq_clamped_weight_sum (k : RcaContext) (l : Option LogAnomalies)
    (a : Option K8sgptAnalysis) (ts : String) :
    (generateRCA k l a ts).confidence =
      min ((if aiRule a then 30 else 0) + (if logRule l then 25 else 0) +
        (if k8sRule k then 20 else 0)) 100 ∧
    (generateRCA k l a ts).confidence ≤ 100 :=
  ⟨generateRCA_confidence_formula k l a ts, by
    rw [generateRCA_confidence_formula k l a ts]; exact Nat.min_le_right _ _⟩

/-- Claim C10: every reachable raw confidence is a sum of a subset of
`{30, 25, 20}`, so it never exceeds 75 and the `min (·) 100` clamp
never changes the value. -/
theorem confidence_unclamped_le_75 (k : RcaContext) (l : Option LogAnomalies)
    (a : Option K8sgptAnalysis) (ts : String) :
    (generateRCA k l a ts).confidence =
      (if aiRule a then 30 else 0) + (if logRule l then 25 else 0) +
        (if k8sRule k then 20 else 0) ∧
    (generateRCA k l a ts).confidence ≤ 75 := by
  refine ⟨?_, ?_⟩ <;> rw [generateRCA_confidence_formula k l a ts] <;>
    split_ifs <;> decide

/-- Claim C3: either no factor triggered — then the confidence is 0 and
the summary is the fixed healthy-system message — or at least one
factor is present and the summary is templated from the factor and
action counts. -/
theorem factors_empty_healthy_or_counts (k : RcaContext) (l : Option LogAnomalies)
    (a : Option K8sgptAnalysis) (ts : String) :
    ((generateRCA k l a ts).factors = [] ∧ (generateRCA k l a ts).confidence = 0 ∧
      (generateRCA k l a ts).summary =
        "No significant issues detected. System appears healthy.") ∨
    ((generateRCA k l a ts).factors ≠ [] ∧
      (generateRCA k l a ts).summary =
        s!"Analysis identified {(generateRCA k l a ts).factors.length} contributing factors. {(generateRCA k l a ts).actions.length} recommended actions available.") := by
  by_cases h : (generateRCA k l a ts).factors = []
  · left
    obtain ⟨ha, hl, hk⟩ := (generateRCA_factors_nil_iff k l a ts).mp h
    refine ⟨h, ?_, ?_⟩
    · rw [generateRCA_confidence_formula k l a ts, ha, hl, hk]; decide
    · rw [generateRCA_summary_formula k l a ts, h]; simp
  · right
    have hpos : 0 < (generateRCA k l a ts).factors.length := List.length_pos.mpr h
    refine ⟨h, ?_⟩
    rw [generateRCA_summary_formula k l a ts, if_pos hpos]

/-- Claim C8: `generateRCA` is deterministic — two calls with identical
inputs agree on every field except the caller-supplied timestamp. -/
theorem generateRCA_deterministic (k : RcaContext) (l : Option LogAnomalies)
    (a : Option K8sgptAnalysis) (t1 t2 : String) :
    (generateRCA k l a t1).factors = (generateRCA k l a t2).factors ∧
    (generateRCA k l a t1).actions = (generateRCA k l a t2).actions ∧
    (generateRCA k l a t1).confidence = (generateRCA k l a t2).confidence ∧
    (generateRCA k l a t1).summary = (generateRCA k l a t2).summary ∧
    (generateRCA k l a t1).evidence = (generateRCA k l a t2).evidence :=
  ⟨rfl, rfl, rfl, rfl, rfl⟩

/-!
## Theorems about the circuit breaker
-/

/-- Claim C4: starting from a closed breaker with no recorded
failures, three consecutive provider failures open the breaker and
schedule the reset 60 s ahead; while open, every call is rejected with
the circuit-open error, touching neither the provider nor the limiter
and leaving the state unchanged; once the cooldown instant is reached
the breaker is closed with failure count 0, and a call then reaches
the provider and returns its payload. -/
theorem breaker_opens_after_three_failures_then_cools (t1 t2 t3 now : Nat)
    (e1 e2 e3 : String) (f : Nat) (ra : Option Nat)
    (p : Except String String) (r : String) :
    (queryStep (queryStep (queryStep ⟨0, false, none⟩ t1 (.error e1)).state t2
        (.error e2)).state t3 (.error e3)).state =
      ⟨3, true, some (t3 + resetTimeoutMs)⟩ ∧
    queryStep ⟨f, true, ra⟩ now p =
      { result := .error "Circuit breaker open - LLM service unavailable"
        state := ⟨f, true, ra⟩, providerInvoked := false
        limiterScheduled := false } ∧
    advanceTo ⟨3, true, some (t3 + resetTimeoutMs)⟩ (t3 + resetTimeoutMs) =
      ⟨0, false, none⟩ ∧
    queryStep ⟨0, false, none⟩ now (.ok r) =
      { result := .ok r, state := ⟨0, false, none⟩
        providerInvoked := true, limiterScheduled := true } := by
  refine ⟨?_, ?_, ?_, ?_⟩ <;>
    simp [queryStep, handleFailure, onSuccess, advanceTo, fireReset,
      maxFailures, resetTimeoutMs]

/-- Claim C5: a call that passes the breaker gate (breaker closed) is
scheduled on the limiter and reaches the provider; on provider success
the payload is returned unchanged and the failure count reset to 0; on
provider exception the failure count is incremented and the very same
error is re-raised — the wrapper adds no error of its own. -/
theorem query_passthrough_success_and_failure (f : Nat) (ra : Option Nat)
    (now : Nat) (r e : String) :
    queryStep ⟨f, false, ra⟩ now (.ok r) =
      { result := .ok r, state := ⟨0, false, ra⟩
        providerInvoked := true, limiterScheduled := true } ∧
    (queryStep ⟨f, false, ra⟩ now (.error e)).result = .error e ∧
    (queryStep ⟨f, false, ra⟩ now (.error e)).state.circuitBreakerFailures = f + 1 ∧
    (queryStep ⟨f, false, ra⟩ now (.error e)).providerInvoked = true ∧
    (queryStep ⟨f, false, ra⟩ now (.error e)).limiterScheduled = true := by
  refine ⟨?_, ?_, ?_, ?_, ?_⟩ <;>
    (simp [queryStep, handleFailure, onSuccess]; try (split_ifs <;> rfl))

/-- Claim C9: on an open breaker, the success path of an in-flight call
resets the failure count to 0 but leaves the breaker open, and neither
a further failure nor a gated call closes it — the scheduled reset
callback is the only transition that yields a closed breaker. -/
theorem success_never_closes_open_breaker (f : Nat) (ra : Option Nat)
    (now : Nat) (p : Except String String) :
    (onSuccess ⟨f, true, ra⟩).circuitBreakerOpen = true ∧
    (onSuccess ⟨f, true, ra⟩).circuitBreakerFailures = 0 ∧
    (handleFailure ⟨f, true, ra⟩ now).circuitBreakerOpen = true ∧
    (queryStep ⟨f, true, ra⟩ now p).state.circuitBreakerOpen = true ∧
    fireReset.circuitBreakerOpen = false ∧
    fireReset.circuitBreakerFailures = 0 := by
  refine ⟨rfl, rfl, ?_, ?_, rfl, rfl⟩ <;>
    (simp [queryStep, handleFailure, fireReset]; try (split_ifs <;> rfl))

/-!
## Theorems about the orchestrator
-/

/-- Claim C6: after the join, a rejected Kubernetes branch aborts the
run with the fatal error and no `RCAResult` is produced; a rejected
log branch with a fulfilled Kubernetes branch still produces a valid
`RCAResult`, identical to the one produced with no log data at all —
in particular the aggregator receives `none` for the log outcome, so
no log-derived factor can be triggered. -/
theorem handler_mandatory_k8s_optional_logs (k : RcaContext)
    (reason e : String) (lr : Settled (Option LogAnomalies))
    (ar : Settled (Option K8sgptAnalysis)) (ai : Option K8sgptAnalysis)
    (ts : String) :
    handlerAfterSettle (.rejected reason) lr ar ts =
      .error s!"Failed to fetch Kubernetes context: {reason}" ∧
    (∃ r : RcaResult,
      handlerAfterSettle (.fulfilled k) (.rejected e) ar ts = .ok r) ∧
    handlerAfterSettle (.fulfilled k) (.rejected e) ar ts =
      handlerAfterSettle (.fulfilled k) (.fulfilled none) ar ts ∧
    handlerAfterSettle (.fulfilled k) (.rejected e) (.fulfilled ai) ts =
      .ok (generateRCA k none ai ts) ∧
    logRule none = false :=
  ⟨rfl, ⟨_, rfl⟩, rfl, rfl, rfl⟩

/-- Projection: the settled Kubernetes outcome of the join, if the join
fulfilled. -/
def firstOutcome (j : SettledAt (Settled α × Settled β × Settled γ)) :
    Option (Settled α) :=
  match j.out with
  | .fulfilled t => some t.1
  | .rejected _ => none

/-- Projection: the settled log outcome of the join. -/
def secondOutcome (j : SettledAt (Settled α × Settled β × Settled γ)) :
    Option (Settled β) :=
  match j.out with
  | .fulfilled t => some t.2.1
  | .rejected _ => none

/-- Projection: the settled AI outcome of the join. -/
def thirdOutcome (j : SettledAt (Settled α × Settled β × Settled γ)) :
    Option (Settled γ) :=
  match j.out with
  | .fulfilled t => some t.2.2
  | .rejected _ => none

/-- Claim C7: the join of the three raced branches always fulfills with
the full outcome triple (settle-all, never fail-fast), settles no later
than the largest deadline (20 s), each branch's settled outcome is
independent of the other two branches, and a branch whose fetch has not
settled by its own deadline (10 s / 15 s / 20 s) is reported failed —
rejected with its timeout message for the two plain branches, collapsed
to an absent (`none`) payload for the `.catch`-wrapped AI branch —
without affecting the other slots. -/
theorem fanout_settle_all_independent_deadlines
    (k k2 : TimedPromise RcaContext) (l l2 : TimedPromise LogAnomalies)
    (a a2 : TimedPromise K8sgptAnalysis) :
    (∃ t, (settleSources true true k l a).out = Settled.fulfilled t) ∧
    (settleSources true true k l a).settledAt ≤ 20000 ∧
    firstOutcome (settleSources true true k l a) =
      firstOutcome (settleSources true true k l2 a2) ∧
    secondOutcome (settleSources true true k l a) =
      secondOutcome (settleSources true true k2 l a2) ∧
    thirdOutcome (settleSources true true k l a) =
      thirdOutcome (settleSources true true k2 l2 a) ∧
    (10000 ≤ k.completesAt →
      firstOutcome (settleSources true true k l a) =
        some (.rejected "Kubernetes API timeout")) ∧
    (15000 ≤ l.completesAt →
      secondOutcome (settleSources true true k l a) =
        some (.rejected "VictoriaLogs timeout")) ∧
    (20000 ≤ a.completesAt →
      thirdOutcome (settleSources true true k l a) =
        some (.fulfilled none)) := by
  refine ⟨⟨_, rfl⟩, ?_, rfl, rfl, rfl, ?_, ?_, ?_⟩
  · simp only [settleSources, allSettled3, raceTimeout, catchToNull]
    split_ifs <;> simp <;> omega
  · intro h
    have hn : ¬ k.completesAt < 10000 := Nat.not_lt.mpr h
    simp [settleSources, allSettled3, raceTimeout, catchToNull, firstOutcome, hn]
  · intro h
    have hn : ¬ l.completesAt < 15000 := Nat.not_lt.mpr h
    simp [settleSources, allSettled3, raceTimeout, catchToNull, secondOutcome, hn]
  · intro h
    have hn : ¬ a.completesAt < 20000 := Nat.not_lt.mpr h
    simp [settleSources, allSettled3, raceTimeout, catchToNull, thirdOutcome, hn]

/-- Witness for the deadline-expiry clauses of
`fanout_settle_all_independent_deadlines`, at branches that all hang
until past every deadline. -/
theorem fanout_settle_all_witness :
    firstOutcome (settleSources true true ⟨999999, Except.ok exampleK8sContext⟩
        ⟨999999, Except.ok exampleLogAnomalies⟩ ⟨999999, Except.ok exampleAi⟩) =
      some (Settled.rejected "Kubernetes API timeout") ∧
    secondOutcome (settleSources true true ⟨999999, Except.ok exampleK8sContext⟩
        ⟨999999, Except.ok exampleLogAnomalies⟩ ⟨999999, Except.ok exampleAi⟩) =
      some (Settled.rejected "VictoriaLogs timeout") ∧
    thirdOutcome (settleSources true true ⟨999999, Except.ok exampleK8sContext⟩
        ⟨999999, Except.ok exampleLogAnomalies⟩ ⟨999999, Except.ok exampleAi⟩) =
      some (Settled.fulfilled none) := by
  obtain ⟨-, -, -, -, -, h1, h2, h3⟩ :=
    fanout_settle_all_independent_deadlines
      ⟨999999, Except.ok exampleK8sContext⟩ ⟨999999, Except.ok exampleK8sContext⟩
      ⟨999999, Except.ok exampleLogAnomalies⟩ ⟨999999, Except.ok exampleLogAnomalies⟩
      ⟨999999, Except.ok exampleAi⟩ ⟨999999, Except.ok exampleAi⟩
  exact ⟨h1 (by decide), h2 (by decide), h3 (by decide)⟩
